import Mathlib

/-!
Shallow embedding of the tic-tac-toe CLI client (`cli/src/client.rs`).

The client orchestrates game-state resolution and transaction submission
against an object ledger.  Pure decision logic of each method is embedded
as an executable Lean function; the external collaborators (RPC reads,
wallet signing/coin selection, BCS deserialization of the Move structs
defined outside this file) are passed in as explicit data or function
parameters, so that every branch of the Rust source is mirrored by a
branch here.

Machine integers: `u64` values are `Nat` with wrap-around written as
`% U64_SIZE` exactly where Rust release-mode arithmetic wraps; the `i64`
result of `net_gas_usage` is an `Int`.  Byte strings are `List Nat`.
-/

/-- Object identifiers (Sui addresses / object ids), abstracted to `Nat`. -/
abbrev ObjectID := Nat

/-- Account addresses, abstracted to `Nat`. -/
abbrev SuiAddress := Nat

/-- The triple `(id, version, digest)` — an exact pointer to one object version. -/
abbrev ObjectRef := ObjectID × Nat × Nat

/-- The modulus `2 ^ 64` of `u64` arithmetic. -/
def U64_SIZE : Nat := 2 ^ 64

/-- Ownership of a ledger object (`sui_types::object::Owner`). -/
inductive Owner where
  | AddressOwner (a : SuiAddress)
  | ObjectOwner (a : SuiAddress)
  | Shared (initial_shared_version : Nat)
  | Immutable
deriving DecidableEq, Repr

/-- A Move struct tag: declaring address, module, name and type parameters
(type parameters abstracted to a list of codes — the client only ever
compares tags for equality). -/
structure StructTag where
  address : Nat
  module : String
  name : String
  type_params : List Nat
deriving DecidableEq, Repr

/-- Raw object content as returned by the read API with `show_bcs`: either a
package or a Move object carrying its type tag and BCS payload
(`raw.try_as_move()` succeeds exactly on the second constructor). -/
inductive SuiRawData where
  | Package (modules : List String)
  | MoveObject (type_ : StructTag) (bcs_bytes : List Nat)
deriving DecidableEq, Repr

/-! ## Gas budget (`Client::build_tx_data_with_sponsor`, lines 456–467) -/

/-- Rust `let overhead = 1000 * gas_price;` — `u64` multiplication, wrapping. -/
def overhead (gas_price : Nat) : Nat :=
  (1000 * gas_price) % U64_SIZE

/-- Rust `net_used.max(0) as u64` — the `i64` net gas usage clamped at zero and
cast to `u64` (the cast is value-preserving after the clamp). -/
def clamped_net (net : Int) : Nat :=
  (max net 0).toNat

/-- Rust `let budget = overhead + (net_used.max(0) as u64).max(computation);` —
the gas budget derived from the cost summary of a dry run, wrapping `u64`
addition. -/
def compute_budget (gas_price computation : Nat) (net : Int) : Nat :=
  (overhead gas_price + Nat.max (clamped_net net) computation) % U64_SIZE

/-! ## Outcome resolution (`Client::game`, lines 144–208) -/

/-- The game outcome decoded from the simulated `ended` call. -/
inductive Winner where
  | None
  | Draw
  | Win
deriving DecidableEq, Repr

/-- One execution result of a dev-inspect call; each return value is kept as
its byte string (the type component of the Rust pair is never inspected). -/
structure SuiExecutionResult where
  return_values : List (List Nat)
deriving DecidableEq, Repr

/-- Results of `dev_inspect_transaction_block` — possibly absent. -/
structure DevInspectResults where
  results : Option (List SuiExecutionResult)
deriving DecidableEq, Repr

/-- Function `extract_winner` (client.rs lines 181–196): first byte of the first
return value of the first result, mapped `0 ↦ None`, `1 ↦ Draw`,
`2 ↦ Win`; anything else (or any absence along the chain) is `none`. -/
def extract_winner (r : DevInspectResults) : Option Winner := do
  let rs ← r.results
  let first ← rs.head?
  let rv ← first.return_values.head?
  let b ← rv.head?
  match b with
  | 0 => some Winner.None
  | 1 => some Winner.Draw
  | 2 => some Winner.Win
  | _ => none

/-- Variants of a decoded game, tagged by the sub-module that declared it.
The payload types `σ` (shared) and `ω` (owned) stay abstract: their BCS
decoding lives outside `client.rs` and is passed in as a function. -/
inductive GameKind (σ ω : Type) where
  | Shared (s : σ)
  | Owned (o : ω)
deriving DecidableEq, Repr

/-- The aggregate built at the end of `Client::game` (lines 202–208). -/
structure Game (σ ω : Type) where
  kind : GameKind σ ω
  owner : Owner
  version : Nat
  digest : Nat
  winner : Winner
deriving DecidableEq, Repr

/-- Step (4) of `Client::game` (lines 198–208): interpret the dev-inspect
results; an undetermined outcome aborts with the error of line 199 instead
of producing a `Game`. -/
def game_of_results {σ ω : Type} (kind : GameKind σ ω) (owner : Owner)
    (version digest : Nat) (r : DevInspectResults) :
    Except String (Game σ ω) :=
  match extract_winner r with
  | some winner => .ok { kind, owner, version, digest, winner }
  | none => .error "Error checking game winner."

/-! ## Object validation and decoding (`Client::game`, lines 113–141) -/

/-- The distinguishable failures of steps (2)–(3) of `Client::game`, one per
`bail!` site (lines 114, 118, 123–127, 133/137, 140). -/
inductive GameError where
  | WrongKind
  | WrongType (t : StructTag)
  | WrongPackage (expected actual : ObjectID)
  | UnrecognisedKind (id : ObjectID) (m : String)
  | DecodeError
deriving DecidableEq, Repr

/-- Steps (2)–(3) of `Client::game`: validate the raw content (must be a
Move object, named `Game`, declared by the configured package) and decode
the payload according to the declaring module.  `decS` / `decO` stand for
`bcs::from_bytes` at the two game types (declared outside this file). -/
def decode_game {σ ω : Type} (package : ObjectID)
    (decS : List Nat → Option σ) (decO : List Nat → Option ω)
    (id : ObjectID) (raw : SuiRawData) : Except GameError (GameKind σ ω) :=
  match raw with
  | .Package _ => .error .WrongKind
  | .MoveObject t bytes =>
    if t.name ≠ "Game" then
      .error (.WrongType t)
    else if t.address ≠ package then
      .error (.WrongPackage package t.address)
    else
      match t.module with
      | "shared" =>
        match decS bytes with
        | some s => .ok (.Shared s)
        | none => .error .DecodeError
      | "owned" =>
        match decO bytes with
        | some o => .ok (.Owned o)
        | none => .error .DecodeError
      | m => .error (.UnrecognisedKind id m)

/-- Returns `true` exactly when the decode failed with `WrongPackage`. -/
def is_wrong_package {α : Type} : Except GameError α → Bool
  | .error (.WrongPackage _ _) => true
  | _ => false

/-! ## Capability lookup (`Client::turn_cap`, lines 213–275) -/

/-- Modelled from the spec: the deserialized `TurnCap` Move struct (defined
in `turn_cap.rs`, outside this file) — the client reads only its `game`
field, the id of the game it authorizes a move on. -/
structure TurnCap where
  game : ObjectID
deriving DecidableEq, Repr

/-- The data part of one owned-object query item. -/
structure SuiObjectData where
  object_id : ObjectID
  version : Nat
  digest : Nat
  bcs : Option SuiRawData
deriving DecidableEq, Repr

/-- One item of an owned-object query response: data and/or a per-item
error. -/
structure SuiObjectResponseItem where
  data : Option SuiObjectData
  error : Option String
deriving DecidableEq, Repr

/-- One page of an owned-object query: its items and the `has_next_page`
flag. -/
structure Page where
  data : List SuiObjectResponseItem
  next : Bool
deriving DecidableEq, Repr

/-- Failures of the capability lookup, one per `bail!` site (lines 240, 263,
272). -/
inductive TurnCapError where
  | ItemError (e : String)
  | CorruptCapability
  | NoTurn
deriving DecidableEq, Repr

/-- Outcome of inspecting one candidate inside the scan loop. -/
inductive ScanStep where
  | skip
  | fatal (e : TurnCapError)
  | found (r : ObjectRef)
deriving DecidableEq, Repr

/-- The body of the `for` loop of `Client::turn_cap` (lines 238–267) for one
candidate: a per-item RPC error is fatal; absent data, absent BCS, package
content, or a type tag other than `cap_type` are skipped; once the type
matches, a failed `bcs::from_bytes::<TurnCap>` (modelled by `decodeCap`)
is fatal; a decoded capability is returned when its `game` field equals
`game_id` and skipped otherwise. -/
def process_candidate (cap_type : StructTag)
    (decodeCap : List Nat → Option TurnCap) (game_id : ObjectID)
    (c : SuiObjectResponseItem) : ScanStep :=
  match c.error with
  | some e => .fatal (.ItemError e)
  | none =>
    match c.data with
    | none => .skip
    | some d =>
      match d.bcs with
      | none => .skip
      | some raw =>
        match raw with
        | .Package _ => .skip
        | .MoveObject t bytes =>
          if t ≠ cap_type then
            .skip
          else
            match decodeCap bytes with
            | none => .fatal .CorruptCapability
            | some cap =>
              if cap.game = game_id then
                .found (d.object_id, d.version, d.digest)
              else
                .skip

/-- Runs the loop body over the items of one page in order; the first non-`skip`
step decides. -/
def scan_items (cap_type : StructTag) (decodeCap : List Nat → Option TurnCap)
    (game_id : ObjectID) : List SuiObjectResponseItem → ScanStep
  | [] => .skip
  | c :: cs =>
    match process_candidate cap_type decodeCap game_id c with
    | .skip => scan_items cap_type decodeCap game_id cs
    | s => s

/-- The page loop of `Client::turn_cap` (lines 231–274) over the finite
sequence of pages the RPC serves: scan a page; a `found` candidate is
returned, a `fatal` step aborts, and after a clean page the loop either
follows the cursor (`has_next_page`) or fails `NoTurn` (line 272).  An
exhausted model stream is treated as the final page. -/
def turn_cap_pages (cap_type : StructTag)
    (decodeCap : List Nat → Option TurnCap) (game_id : ObjectID) :
    List Page → Except TurnCapError ObjectRef
  | [] => .error .NoTurn
  | p :: rest =>
    match scan_items cap_type decodeCap game_id p.data with
    | .found r => .ok r
    | .fatal e => .error e
    | .skip =>
      if p.next then
        turn_cap_pages cap_type decodeCap game_id rest
      else
        .error .NoTurn

/-- A well-formed page stream: non-empty, `has_next_page` true on every page
except the last, false on the last. -/
def pages_wf : List Page → Bool
  | [] => false
  | p :: rest => if rest.isEmpty then !p.next else (p.next && pages_wf rest)

/-! ## Coin selection (`Client::select_coins`, lines 497–519) -/

/-- Input objects of a transaction, as enumerated by
`TransactionKind::input_objects`. -/
inductive InputObjectKind where
  | ImmOrOwnedMoveObject (oref : ObjectRef)
  | MovePackage (id : ObjectID)
  | SharedMoveObject (id : ObjectID) (initial_shared_version : Nat)
      (mutable : Bool)
deriving DecidableEq, Repr

/-- The exclusion set of `Client::select_coins` (lines 503–511): the ids of
exactly the `ImmOrOwnedMoveObject` inputs. -/
def exclude_ids (inputs : List InputObjectKind) : List ObjectID :=
  inputs.filterMap fun input =>
    match input with
    | .ImmOrOwnedMoveObject (id, _, _) => some id
    | .MovePackage _ => none
    | .SharedMoveObject _ _ _ => none

/-- Method `Client::select_coins`: ask the wallet (`gas_for_owner_budget`, passed
in as `gas_for_owner`) for a gas coin of `owner` covering `balance`,
excluding the owned input ids of the transaction; `none` models the wallet
failing to satisfy the request. -/
def select_coins
    (gas_for_owner : SuiAddress → Nat → List ObjectID → Option ObjectRef)
    (owner : SuiAddress) (balance : Nat)
    (inputs : List InputObjectKind) : Option ObjectRef :=
  gas_for_owner owner balance (exclude_ids inputs)

/-! ## Transaction data assembly (`Client::build_tx_data_with_sponsor`) -/

/-- The cost summary of the dry run as the budget computation consumes it:
`computation_cost` (`u64`) and the derived `net_gas_usage()` (`i64`). -/
structure GasEstimate where
  computation_cost : Nat
  net_gas_usage : Int
deriving DecidableEq, Repr

/-- The finalized transaction data (the fields
`TransactionData::new_with_gas_coins[_allow_sponsor]` receives). -/
structure TxData where
  sender : SuiAddress
  payment : List ObjectRef
  gas_budget : Nat
  gas_price : Nat
  sponsor : Option SuiAddress
deriving DecidableEq, Repr

/-- Method `Client::build_tx_data_with_sponsor` (lines 425–481) after the dry run:
derive the budget from the cost summary, select a gas coin owned by the
sponsor (or the sender when unsponsored, `sponsor.unwrap_or(sender)`), and
attach payment, budget and gas price to the transaction. -/
def build_tx_data_with_sponsor (gas_price : Nat) (gas_used : GasEstimate)
    (gas_for_owner : SuiAddress → Nat → List ObjectID → Option ObjectRef)
    (sender : SuiAddress) (sponsor : Option SuiAddress)
    (inputs : List InputObjectKind) : Option TxData :=
  let budget :=
    compute_budget gas_price gas_used.computation_cost gas_used.net_gas_usage
  match select_coins gas_for_owner (sponsor.getD sender) budget inputs with
  | none => none
  | some gas_coin =>
    some { sender := sender, payment := [gas_coin], gas_budget := budget,
           gas_price := gas_price, sponsor := sponsor }

/-! ## Execution checking (`Client::execute_transaction`, lines 523–539, and
`Client::execute_for_game`, lines 376–410) -/

/-- Execution status carried by transaction effects. -/
inductive SuiExecutionStatus where
  | Success
  | Failure (error : String)
deriving DecidableEq, Repr

/-- An entry of the object-change log of a response: the client inspects only
`Created` entries; every other variant (`Published`, `Transferred`,
`Mutated`, `Deleted`, `Wrapped`) falls into `OtherChange`. -/
inductive ObjectChange where
  | Created (object_type : StructTag) (object_id : ObjectID)
  | OtherChange
deriving DecidableEq, Repr

/-- The effects record of a submission response. -/
structure TxEffects where
  status : SuiExecutionStatus
deriving DecidableEq, Repr

/-- A submission response: effects and object-change log, each possibly
absent. -/
structure TxResponse where
  effects : Option TxEffects
  object_changes : Option (List ObjectChange)
deriving DecidableEq, Repr

/-- Failures of submission checking and creation post-processing, one per
`bail!` site (lines 531, 535, 383/406). -/
inductive ExecError where
  | NoEffects
  | ExecutionFailed (reason : String)
  | GameIdNotFound
deriving DecidableEq, Repr

/-- Method `Client::execute_transaction` (lines 523–539) applied to the received
response: absent effects fail `NoEffects`; a failure status fails with the
ledger-reported reason, unmodified; otherwise the response is returned. -/
def execute_transaction_check (r : TxResponse) : Except ExecError TxResponse :=
  match r.effects with
  | none => .error .NoEffects
  | some eff =>
    match eff.status with
    | .Failure e => .error (.ExecutionFailed e)
    | .Success => .ok r

/-- The `find_map` closure of `Client::execute_for_game` (lines 386–405):
a `Created` entry yields its id when its declaring package is `package`
and its type name is `Game`. -/
def created_game_id (package : ObjectID) (c : ObjectChange) :
    Option ObjectID :=
  match c with
  | .Created t id =>
    if t.address ≠ package then none
    else if t.name ≠ "Game" then none
    else some id
  | .OtherChange => none

/-- Method `Client::execute_for_game` (lines 376–410): check execution, then scan
the object-change log for the created game; an absent log or no matching
entry fails `GameIdNotFound` (both `bail!` a `Can not find Game ID`
message) even though execution succeeded. -/
def execute_for_game (package : ObjectID) (r : TxResponse) :
    Except ExecError ObjectID :=
  match execute_transaction_check r with
  | .error e => .error e
  | .ok resp =>
    match resp.object_changes with
    | none => .error .GameIdNotFound
    | some changes =>
      match changes.findSome? (created_game_id package) with
      | none => .error .GameIdNotFound
      | some game_id => .ok game_id

/-! ## Shared-game guards (`Client::delete_shared_game`, lines 300–330, and
`Client::make_shared_move`, lines 334–373) -/

/-- The externally visible steps the two shared-game operations take, in
program order: the wallet active-address lookup, skeleton construction,
gas estimation (RPC dry run), wallet coin selection, wallet signing, and
submission. -/
inductive Step where
  | activeAddress
  | buildSkeleton
  | estimateGas
  | selectGas
  | sign
  | submit
deriving DecidableEq, Repr

/-- Steps served by the wallet collaborator (`active_address`,
`gas_for_owner_budget`, `sign_transaction`). -/
def wallet_step : Step → Bool
  | .activeAddress => true
  | .selectGas => true
  | .sign => true
  | _ => false

/-- Steps that reach the RPC layer. -/
def rpc_step : Step → Bool
  | .estimateGas => true
  | .submit => true
  | _ => false

/-- Method `Client::delete_shared_game` (lines 300–330) as a step-traced
computation: the active address of the wallet is read first (line 301), then
the ownership guard runs (lines 303–308) — a non-`Shared` owner fails
there, before the builder is even created; the remainder of the body
(build, estimate, select, sign, submit, lines 310–329) is abstracted as
`rest`, applied to the `initial_shared_version` the guard extracted. -/
def delete_shared_game (_board_id : ObjectID) (owner : Owner)
    (rest : Nat → Except String Unit × List Step) :
    Except String Unit × List Step :=
  match owner with
  | .Shared isv =>
    let (res, tr) := rest isv
    (res, Step.activeAddress :: tr)
  | _ => (.error "Game is not shared", [Step.activeAddress])

/-- Method `Client::make_shared_move` (lines 334–373), traced the same way as
`delete_shared_game`: active-address lookup, then the ownership guard
(lines 343–348), then the abstracted remainder. -/
def make_shared_move (_board_id : ObjectID) (owner : Owner) (_row _col : Nat)
    (rest : Nat → Except String Unit × List Step) :
    Except String Unit × List Step :=
  match owner with
  | .Shared isv =>
    let (res, tr) := rest isv
    (res, Step.activeAddress :: tr)
  | _ => (.error "Game is not shared", [Step.activeAddress])

/-! ## Helper lemmas -/

lemma clamped_max (net : Int) (comp : Nat) :
    Nat.max (clamped_net net) comp = (max net (comp : Int)).toNat := by
  unfold clamped_net
  simp only [Nat.max_def, max_def]
  split_ifs <;> omega

lemma scan_items_skip_append (ct : StructTag)
    (dec : List Nat → Option TurnCap) (gid : ObjectID)
    (items rest : List SuiObjectResponseItem)
    (h : ∀ x ∈ items, process_candidate ct dec gid x = .skip) :
    scan_items ct dec gid (items ++ rest) = scan_items ct dec gid rest := by
  induction items with
  | nil => rfl
  | cons x xs ih =>
    have hx := h x (List.mem_cons_self x xs)
    simp only [List.cons_append, scan_items, hx]
    exact ih (fun y hy => h y (List.mem_cons_of_mem x hy))

lemma turn_cap_pages_cons (ct : StructTag) (dec : List Nat → Option TurnCap)
    (gid : ObjectID) (p : Page) (rest : List Page) :
    turn_cap_pages ct dec gid (p :: rest) =
      match scan_items ct dec gid p.data with
      | .found r => .ok r
      | .fatal e => .error e
      | .skip =>
        if p.next then turn_cap_pages ct dec gid rest
        else .error .NoTurn := rfl

lemma mem_exclude_ids (inputs : List InputObjectKind) (id : ObjectID) :
    id ∈ exclude_ids inputs ↔
      ∃ v d, InputObjectKind.ImmOrOwnedMoveObject (id, v, d) ∈ inputs := by
  unfold exclude_ids
  rw [List.mem_filterMap]
  constructor
  · rintro ⟨input, hmem, heq⟩
    cases input with
    | ImmOrOwnedMoveObject oref =>
      obtain ⟨i, v, d⟩ := oref
      simp only [Option.some.injEq] at heq
      exact ⟨v, d, heq ▸ hmem⟩
    | MovePackage p => simp at heq
    | SharedMoveObject i isv m => simp at heq
  · rintro ⟨v, d, hmem⟩
    exact ⟨.ImmOrOwnedMoveObject (id, v, d), hmem, rfl⟩

lemma execute_check_ok (r resp : TxResponse)
    (h : execute_transaction_check r = .ok resp) : resp = r := by
  unfold execute_transaction_check at h
  split at h
  · exact absurd h (by simp)
  · split at h
    · exact absurd h (by simp)
    · exact (Except.ok.inj h).symm

/-! ## Claims -/

/-- C1: for every dry-run cost summary and reference gas price, the gas
budget attached to the built transaction equals
`overhead + max(net_gas_usage, computation_cost)` with
`overhead = 1000 × reference_gas_price` (all in wrapping `u64`
arithmetic); in particular, for reference gas price `1000`, computation
cost `500000` and net gas usage `200000`, the budget is `1500000`. -/
theorem C1_budget_formula :
    (∀ (gas_price : Nat) (gas_used : GasEstimate)
        (g : SuiAddress → Nat → List ObjectID → Option ObjectRef)
        (sender : SuiAddress) (sponsor : Option SuiAddress)
        (inputs : List InputObjectKind) (td : TxData),
      build_tx_data_with_sponsor gas_price gas_used g sender sponsor inputs =
          some td →
      td.gas_budget =
        (1000 * gas_price +
          (max gas_used.net_gas_usage
            (gas_used.computation_cost : Int)).toNat) % U64_SIZE)
    ∧ compute_budget 1000 500000 200000 = 1500000 := by
  constructor
  · intro gas_price gas_used g sender sponsor inputs td h
    have hb : compute_budget gas_price gas_used.computation_cost
        gas_used.net_gas_usage =
        (1000 * gas_price +
          (max gas_used.net_gas_usage
            (gas_used.computation_cost : Int)).toNat) % U64_SIZE := by
      unfold compute_budget overhead
      rw [Nat.mod_add_mod, clamped_max]
    simp only [build_tx_data_with_sponsor] at h
    split at h
    · exact absurd h (by simp)
    · injection h with h
      subst h
      simpa using hb
  · decide

/-- C1 witness: the theorem applied to the concrete dry-run summary
`(computation_cost, net_gas_usage) = (500000, 200000)` at reference gas
price `1000`, with a wallet that offers coin `(3, 0, 0)`. -/
theorem C1_budget_formula_witness :
    ({ sender := 7, payment := [((3, 0, 0) : ObjectRef)],
       gas_budget := 1500000, gas_price := 1000,
       sponsor := none } : TxData).gas_budget =
      (1000 * 1000 + (max (200000 : Int) ((500000 : Nat) : Int)).toNat) %
        U64_SIZE :=
  C1_budget_formula.1 1000 ⟨500000, 200000⟩ (fun _ _ _ => some (3, 0, 0))
    7 none [] _ (by decide)

/-- C9 counterexample: with wrapping `u64` arithmetic the budget is NOT
always at least the overhead — at reference gas price `2 ^ 64 − 1` with
computation cost `2000` and net usage `0`, the budget wraps to `1000`,
strictly below the overhead. -/
theorem C9_budget_overflow_counterexample :
    compute_budget (U64_SIZE - 1) 2000 0 = 1000 ∧
    overhead (U64_SIZE - 1) = U64_SIZE - 1000 ∧
    compute_budget (U64_SIZE - 1) 2000 0 < overhead (U64_SIZE - 1) := by
  refine ⟨by decide, by decide, by decide⟩

/-- C9 (amended): whenever the exact sum
`1000 × reference_gas_price + max(clamped net usage, computation_cost)`
fits in a `u64` (no wrap-around), the computed budget is at least the
overhead `1000 × reference_gas_price`. -/
theorem C9_budget_ge_overhead (gas_price computation : Nat) (net : Int)
    (h : 1000 * gas_price + Nat.max (clamped_net net) computation <
      U64_SIZE) :
    overhead gas_price ≤ compute_budget gas_price computation net := by
  unfold compute_budget overhead
  rw [Nat.mod_add_mod]
  have h1 : 1000 * gas_price < U64_SIZE :=
    lt_of_le_of_lt (Nat.le_add_right _ _) h
  rw [Nat.mod_eq_of_lt h1, Nat.mod_eq_of_lt h]
  exact Nat.le_add_right _ _

/-- C9 witness: the amended theorem at reference gas price `1000`,
computation cost `500000`, net usage `200000`. -/
theorem C9_budget_ge_overhead_witness :
    overhead 1000 ≤ compute_budget 1000 500000 200000 :=
  C9_budget_ge_overhead 1000 500000 200000 (by decide)

/-- C2: for every simulated-call result during outcome resolution, first
byte `0` of the first return value yields `Winner.None`, `1` yields
`Winner.Draw`, `2` yields `Winner.Win`; any other first byte (every byte
is of the form `b + 3`), an empty byte string, an absent return value, an
empty result list, or absent results make the game fetch fail with the
outcome-undetermined error instead of returning a `Game`. -/
theorem C2_winner_mapping :
    ∀ (σ ω : Type) (kind : GameKind σ ω) (owner : Owner) (v d : Nat)
      (bytes : List Nat) (rvs : List (List Nat))
      (res : List SuiExecutionResult),
      (game_of_results kind owner v d
          ⟨some ({ return_values := (0 :: bytes) :: rvs } :: res)⟩ =
        .ok { kind := kind, owner := owner, version := v, digest := d,
              winner := .None })
      ∧ (game_of_results kind owner v d
          ⟨some ({ return_values := (1 :: bytes) :: rvs } :: res)⟩ =
        .ok { kind := kind, owner := owner, version := v, digest := d,
              winner := .Draw })
      ∧ (game_of_results kind owner v d
          ⟨some ({ return_values := (2 :: bytes) :: rvs } :: res)⟩ =
        .ok { kind := kind, owner := owner, version := v, digest := d,
              winner := .Win })
      ∧ (∀ b : Nat, game_of_results kind owner v d
          ⟨some ({ return_values := ((b + 3) :: bytes) :: rvs } :: res)⟩ =
        .error "Error checking game winner.")
      ∧ (game_of_results kind owner v d
          ⟨some ({ return_values := ([] : List Nat) :: rvs } :: res)⟩ =
        .error "Error checking game winner.")
      ∧ (game_of_results kind owner v d
          ⟨some ({ return_values := [] } :: res)⟩ =
        .error "Error checking game winner.")
      ∧ (game_of_results kind owner v d ⟨some []⟩ =
        .error "Error checking game winner.")
      ∧ (game_of_results kind owner v d ⟨none⟩ =
        .error "Error checking game winner.") := by
  intro σ ω kind owner v d bytes rvs res
  refine ⟨rfl, rfl, rfl, fun b => rfl, rfl, rfl, rfl, rfl⟩

/-- C4 counterexample: a fetched Move object from the wrong package whose
type name is not `Game` (here `Board` from package `2` while package `1`
is configured) fails with the wrong-type error, not the wrong-package
error — so a package mismatch does not always surface as `WrongPackage`
regardless of the rest of the content. -/
theorem C4_wrong_package_counterexample :
    @decode_game Unit Unit 1 (fun _ => some ()) (fun _ => some ()) 99
        (.MoveObject ⟨2, "shared", "Board", []⟩ [7]) =
      .error (.WrongType ⟨2, "shared", "Board", []⟩) ∧
    is_wrong_package (@decode_game Unit Unit 1 (fun _ => some ())
        (fun _ => some ()) 99
          (.MoveObject ⟨2, "shared", "Board", []⟩ [7])) = false := by
  exact ⟨rfl, rfl⟩

/-- C4 (amended): for every fetched Move object whose type name equals
`Game` and whose declaring package differs from the configured package
id, decoding it as a game fails with the wrong-package error, regardless
of its declaring module, its payload bytes, and the payload decoders. -/
theorem C4_wrong_package (σ ω : Type) (decS : List Nat → Option σ)
    (decO : List Nat → Option ω) (package id : ObjectID) (t : StructTag)
    (bytes : List Nat) (hname : t.name = "Game")
    (hpkg : t.address ≠ package) :
    decode_game package decS decO id (.MoveObject t bytes) =
      .error (.WrongPackage package t.address) := by
  simp [decode_game, hname, hpkg]

/-- C4 witness: the amended theorem at a `Game`-named object declared by
package `2` while package `1` is configured. -/
theorem C4_wrong_package_witness :
    @decode_game Unit Unit 1 (fun _ => some ()) (fun _ => some ()) 99
        (.MoveObject ⟨2, "shared", "Game", []⟩ []) =
      .error (.WrongPackage 1 2) :=
  C4_wrong_package Unit Unit (fun _ => some ()) (fun _ => some ()) 1 99
    ⟨2, "shared", "Game", []⟩ [] rfl (by decide)

/-- C3: during the capability scan, an error-free candidate is skipped
(without failing) when its content is absent, when its BCS payload is
absent, when it is a package rather than a typed Move object, or when its
type differs from the capability type; but once its type equals the
capability type, a failing payload deserialization turns into a fatal
step, and such a fatal step aborts the whole page loop with that error. -/
theorem C3_candidate_scan :
    (∀ (ct : StructTag) (dec : List Nat → Option TurnCap) (gid : ObjectID),
      process_candidate ct dec gid ⟨none, none⟩ = .skip)
    ∧ (∀ (ct : StructTag) (dec : List Nat → Option TurnCap)
        (gid oid v dg : ObjectID),
      process_candidate ct dec gid ⟨some ⟨oid, v, dg, none⟩, none⟩ = .skip)
    ∧ (∀ (ct : StructTag) (dec : List Nat → Option TurnCap)
        (gid oid v dg : ObjectID) (mods : List String),
      process_candidate ct dec gid
        ⟨some ⟨oid, v, dg, some (.Package mods)⟩, none⟩ = .skip)
    ∧ (∀ (ct : StructTag) (dec : List Nat → Option TurnCap)
        (gid oid v dg : ObjectID) (t : StructTag) (bytes : List Nat),
      t ≠ ct →
      process_candidate ct dec gid
        ⟨some ⟨oid, v, dg, some (.MoveObject t bytes)⟩, none⟩ = .skip)
    ∧ (∀ (ct : StructTag) (dec : List Nat → Option TurnCap)
        (gid oid v dg : ObjectID) (bytes : List Nat),
      dec bytes = none →
      process_candidate ct dec gid
        ⟨some ⟨oid, v, dg, some (.MoveObject ct bytes)⟩, none⟩ =
        .fatal .CorruptCapability)
    ∧ (∀ (ct : StructTag) (dec : List Nat → Option TurnCap) (gid : ObjectID)
        (items : List SuiObjectResponseItem) (c : SuiObjectResponseItem)
        (cs : List SuiObjectResponseItem) (b : Bool) (pages : List Page)
        (e : TurnCapError),
      (∀ x ∈ items, process_candidate ct dec gid x = .skip) →
      process_candidate ct dec gid c = .fatal e →
      turn_cap_pages ct dec gid (⟨items ++ c :: cs, b⟩ :: pages) =
        .error e) := by
  refine ⟨?_, ?_, ?_, ?_, ?_, ?_⟩
  · intro ct dec gid
    rfl
  · intro ct dec gid oid v dg
    rfl
  · intro ct dec gid oid v dg mods
    rfl
  · intro ct dec gid oid v dg t bytes ht
    simp [process_candidate, ht]
  · intro ct dec gid oid v dg bytes hdec
    simp [process_candidate, hdec]
  · intro ct dec gid items c cs b pages e hskip hfatal
    have hscan : scan_items ct dec gid (items ++ c :: cs) = .fatal e := by
      rw [scan_items_skip_append ct dec gid items (c :: cs) hskip]
      simp only [scan_items, hfatal]
    rw [turn_cap_pages_cons, hscan]

/-- C3 witness: the theorem at concrete inputs — a capability-typed
candidate whose decoder rejects every payload is fatal, and a singleton
page carrying it aborts the lookup with `CorruptCapability`. -/
theorem C3_candidate_scan_witness :
    process_candidate ⟨1, "owned", "TurnCap", []⟩ (fun _ => none) 0
        ⟨some ⟨5, 1, 2, some (.MoveObject ⟨1, "owned", "TurnCap", []⟩ [9])⟩,
          none⟩ = .fatal .CorruptCapability ∧
    turn_cap_pages ⟨1, "owned", "TurnCap", []⟩ (fun _ => none) 0
        [⟨[⟨some ⟨5, 1, 2,
            some (.MoveObject ⟨1, "owned", "TurnCap", []⟩ [9])⟩, none⟩],
          false⟩] = .error .CorruptCapability :=
  ⟨C3_candidate_scan.2.2.2.2.1 ⟨1, "owned", "TurnCap", []⟩ (fun _ => none)
      0 5 1 2 [9] rfl,
   C3_candidate_scan.2.2.2.2.2 ⟨1, "owned", "TurnCap", []⟩ (fun _ => none)
      0 [] _ [] false [] .CorruptCapability (by simp)
      (C3_candidate_scan.2.2.2.2.1 ⟨1, "owned", "TurnCap", []⟩
        (fun _ => none) 0 5 1 2 [9] rfl)⟩

/-- C5: over every well-formed finite page stream whose candidates all
scan to `skip` (in particular over an empty owned-object set), the
capability lookup consumes all pages and fails with the not-your-turn
error; and whenever all pages before some page scan clean and keep
paginating, and on that page every candidate before some candidate is
skipped while that candidate is the first to match, the lookup returns
exactly that candidate. -/
theorem C5_turn_cap_pagination :
    (∀ (ct : StructTag) (dec : List Nat → Option TurnCap) (gid : ObjectID)
        (pages : List Page),
      pages_wf pages = true →
      (∀ p ∈ pages, scan_items ct dec gid p.data = .skip) →
      turn_cap_pages ct dec gid pages = .error .NoTurn)
    ∧ (∀ (ct : StructTag) (dec : List Nat → Option TurnCap) (gid : ObjectID)
        (front : List Page) (p_items : List SuiObjectResponseItem)
        (c : SuiObjectResponseItem) (c_rest : List SuiObjectResponseItem)
        (p_next : Bool) (rest : List Page) (r : ObjectRef),
      (∀ q ∈ front, q.next = true ∧ scan_items ct dec gid q.data = .skip) →
      (∀ x ∈ p_items, process_candidate ct dec gid x = .skip) →
      process_candidate ct dec gid c = .found r →
      turn_cap_pages ct dec gid
        (front ++ ⟨p_items ++ c :: c_rest, p_next⟩ :: rest) = .ok r) := by
  constructor
  · intro ct dec gid pages
    induction pages with
    | nil => intro hwf; exact absurd hwf (by simp [pages_wf])
    | cons p rest ih =>
      intro hwf hskip
      have hp : scan_items ct dec gid p.data = .skip :=
        hskip p (List.mem_cons_self p rest)
      cases rest with
      | nil =>
        have hnext : p.next = false := by
          simpa [pages_wf] using hwf
        rw [turn_cap_pages_cons, hp]
        simp [hnext]
      | cons q qs =>
        have hnext : p.next = true ∧ pages_wf (q :: qs) = true := by
          simpa [pages_wf] using hwf
        have hrec := ih hnext.2
          (fun x hx => hskip x (List.mem_cons_of_mem p hx))
        rw [turn_cap_pages_cons, hp]
        simp [hnext.1, hrec]
  · intro ct dec gid front p_items c c_rest p_next rest r hfront hitems hc
    induction front with
    | nil =>
      have hscan : scan_items ct dec gid (p_items ++ c :: c_rest) =
          .found r := by
        rw [scan_items_skip_append ct dec gid p_items (c :: c_rest) hitems]
        simp only [scan_items, hc]
      rw [List.nil_append, turn_cap_pages_cons, hscan]
    | cons q qs ih =>
      have hq := hfront q (List.mem_cons_self q qs)
      have hrec := ih (fun x hx => hfront x (List.mem_cons_of_mem q hx))
      rw [List.cons_append, turn_cap_pages_cons, hq.2]
      simp [hq.1, hrec]

/-- C5 witness: the theorem applied to a one-page empty owned-object set
(fails not-your-turn) and to a stream whose second page holds, after one
skipped package candidate, a capability for game `0` at `(5, 1, 2)`. -/
theorem C5_turn_cap_pagination_witness :
    turn_cap_pages ⟨1, "owned", "TurnCap", []⟩ (fun _ => some ⟨0⟩) 0
        [⟨[], false⟩] = .error .NoTurn ∧
    turn_cap_pages ⟨1, "owned", "TurnCap", []⟩ (fun _ => some ⟨0⟩) 0
        [⟨[], true⟩,
         ⟨[⟨some ⟨9, 9, 9, some (.Package ["m"])⟩, none⟩,
           ⟨some ⟨5, 1, 2,
             some (.MoveObject ⟨1, "owned", "TurnCap", []⟩ [0])⟩, none⟩],
           false⟩] = .ok (5, 1, 2) :=
  ⟨C5_turn_cap_pagination.1 ⟨1, "owned", "TurnCap", []⟩ (fun _ => some ⟨0⟩)
      0 [⟨[], false⟩] rfl (by simp [scan_items]),
   C5_turn_cap_pagination.2 ⟨1, "owned", "TurnCap", []⟩ (fun _ => some ⟨0⟩)
      0 [⟨[], true⟩] [⟨some ⟨9, 9, 9, some (.Package ["m"])⟩, none⟩] _ []
      false [] (5, 1, 2) (by simp [scan_items]) (by simp [process_candidate])
      rfl⟩

/-- C6: for every transaction skeleton, the exclusion set passed to the
coin-selection request holds exactly the ids of the exclusively-owned
(`ImmOrOwnedMoveObject`) inputs — shared-object and package inputs are
never excluded — and against any wallet that honours exclusions the
selected gas coin never carries the id of an owned input. -/
theorem C6_exclusion_set :
    (∀ (inputs : List InputObjectKind) (id : ObjectID),
      id ∈ exclude_ids inputs ↔
        ∃ v d, InputObjectKind.ImmOrOwnedMoveObject (id, v, d) ∈ inputs)
    ∧ (∀ (g : SuiAddress → Nat → List ObjectID → Option ObjectRef)
        (owner : SuiAddress) (balance : Nat)
        (inputs : List InputObjectKind) (r : ObjectRef),
      (∀ (o : SuiAddress) (b : Nat) (ex : List ObjectID) (c : ObjectRef),
        g o b ex = some c → c.1 ∉ ex) →
      select_coins g owner balance inputs = some r →
      ∀ v d, InputObjectKind.ImmOrOwnedMoveObject (r.1, v, d) ∉ inputs) := by
  constructor
  · exact mem_exclude_ids
  · intro g owner balance inputs r hwallet hsel v d hmem
    have hr : r.1 ∉ exclude_ids inputs := hwallet _ _ _ _ hsel
    exact hr ((mem_exclude_ids inputs r.1).mpr ⟨v, d, hmem⟩)

/-- C6 witness: the theorem applied to a skeleton with one owned input
`(7, 0, 0)` and one shared input, with a wallet that offers coin `9`
unless `9` is excluded: the selected coin id `9` is not an owned input
id. -/
theorem C6_exclusion_set_witness :
    InputObjectKind.ImmOrOwnedMoveObject ((9, 0, 0) : ObjectRef) ∉
      [InputObjectKind.ImmOrOwnedMoveObject (7, 0, 0),
       InputObjectKind.SharedMoveObject 3 1 true] :=
  C6_exclusion_set.2
    (fun _ _ ex => if 9 ∈ ex then none else some (9, 0, 0)) 5 1500000
    [InputObjectKind.ImmOrOwnedMoveObject (7, 0, 0),
     InputObjectKind.SharedMoveObject 3 1 true] (9, 0, 0)
    (by
      intro o b ex c h
      by_cases h9 : 9 ∈ ex
      · simp [h9] at h
      · simp only [h9, if_neg, if_false] at h
        cases h
        simpa using h9)
    (by decide) 0 0

/-- C7: for every submission response, the execution check fails with the
no-effects error when the response carries no effects record, fails with
the ledger-reported failure reason, unmodified, when the effects report a
failure status, and returns the response itself otherwise. -/
theorem C7_execution_check :
    (∀ r : TxResponse, r.effects = none →
      execute_transaction_check r = .error .NoEffects)
    ∧ (∀ (r : TxResponse) (eff : TxEffects) (e : String),
      r.effects = some eff → eff.status = .Failure e →
      execute_transaction_check r = .error (.ExecutionFailed e))
    ∧ (∀ (r : TxResponse) (eff : TxEffects),
      r.effects = some eff → eff.status = .Success →
      execute_transaction_check r = .ok r) := by
  refine ⟨?_, ?_, ?_⟩
  · intro r h
    simp [execute_transaction_check, h]
  · intro r eff e h hs
    simp [execute_transaction_check, h, hs]
  · intro r eff h hs
    simp [execute_transaction_check, h, hs]

/-- C7 witness: the theorem at three concrete responses — one without
effects, one whose effects report failure reason `InsufficientGas`, and
one successful. -/
theorem C7_execution_check_witness :
    execute_transaction_check ⟨none, none⟩ = .error .NoEffects ∧
    execute_transaction_check ⟨some ⟨.Failure "InsufficientGas"⟩, none⟩ =
      .error (.ExecutionFailed "InsufficientGas") ∧
    execute_transaction_check ⟨some ⟨.Success⟩, none⟩ =
      .ok ⟨some ⟨.Success⟩, none⟩ :=
  ⟨C7_execution_check.1 ⟨none, none⟩ rfl,
   C7_execution_check.2.1 ⟨some ⟨.Failure "InsufficientGas"⟩, none⟩
     ⟨.Failure "InsufficientGas"⟩ "InsufficientGas" rfl rfl,
   C7_execution_check.2.2 ⟨some ⟨.Success⟩, none⟩ ⟨.Success⟩ rfl rfl⟩

/-- C8: for every successfully executed creation response, an absent
object-change log, or a log without a `Created` entry matching the
configured package and the `Game` type name, fails with the
game-id-not-found error even though execution succeeded; and whenever an
id is returned it is the object id of a `Created` entry of the log whose
declaring package equals the configured package and whose type name is
`Game`. -/
theorem C8_game_id_extraction :
    (∀ (package : ObjectID) (r : TxResponse) (eff : TxEffects),
      r.effects = some eff → eff.status = .Success →
      r.object_changes = none →
      execute_for_game package r = .error .GameIdNotFound)
    ∧ (∀ (package : ObjectID) (r : TxResponse) (eff : TxEffects)
        (changes : List ObjectChange),
      r.effects = some eff → eff.status = .Success →
      r.object_changes = some changes →
      (∀ c ∈ changes, created_game_id package c = none) →
      execute_for_game package r = .error .GameIdNotFound)
    ∧ (∀ (package : ObjectID) (r : TxResponse) (id : ObjectID),
      execute_for_game package r = .ok id →
      ∃ changes t, r.object_changes = some changes ∧
        ObjectChange.Created t id ∈ changes ∧
        t.address = package ∧ t.name = "Game") := by
  refine ⟨?_, ?_, ?_⟩
  · intro package r eff heff hs hoc
    have hck : execute_transaction_check r = .ok r := by
      simp [execute_transaction_check, heff, hs]
    simp [execute_for_game, hck, hoc]
  · intro package r eff changes heff hs hoc hnone
    have hck : execute_transaction_check r = .ok r := by
      simp [execute_transaction_check, heff, hs]
    have hfind : changes.findSome? (created_game_id package) = none :=
      List.findSome?_eq_none_iff.mpr hnone
    simp [execute_for_game, hck, hoc, hfind]
  · intro package r id h
    unfold execute_for_game at h
    cases hck : execute_transaction_check r with
    | error e => simp [hck] at h
    | ok resp =>
      have hresp : resp = r := execute_check_ok r resp hck
      subst hresp
      simp only [hck] at h
      cases hoc : resp.object_changes with
      | none => simp [hoc] at h
      | some changes =>
        simp only [hoc] at h
        cases hfind : changes.findSome? (created_game_id package) with
        | none => simp [hfind] at h
        | some gid =>
          simp only [hfind] at h
          have hid : gid = id := by simpa using h
          subst hid
          obtain ⟨c, hcmem, hceq⟩ := List.exists_of_findSome?_eq_some hfind
          cases c with
          | OtherChange => simp [created_game_id] at hceq
          | Created t oid =>
            simp only [created_game_id] at hceq
            split_ifs at hceq with h1 h2
            have hoid : oid = gid := Option.some.inj hceq
            subst hoid
            exact ⟨changes, t, rfl, hcmem, not_not.mp h1, not_not.mp h2⟩

/-- C8 witness: the theorem applied to a successful response without an
object-change log (fails game-id-not-found). -/
theorem C8_game_id_extraction_witness :
    execute_for_game 5 ⟨some ⟨.Success⟩, none⟩ = .error .GameIdNotFound :=
  C8_game_id_extraction.1 5 ⟨some ⟨.Success⟩, none⟩ ⟨.Success⟩ rfl rfl rfl

/-- C10 counterexample: with a non-`Shared` ownership value the shared-game
operations do fail with the game-is-not-shared error before the skeleton
is built, but the failure trace is not free of wallet interaction: it
contains the wallet active-address lookup, which the code performs before
the ownership guard. -/
theorem C10_not_shared_counterexample :
    (make_shared_move 9 Owner.Immutable 0 0 (fun _ => (.ok (), []))).1 =
      .error "Game is not shared" ∧
    List.any (make_shared_move 9 Owner.Immutable 0 0
      (fun _ => (.ok (), []))).2 wallet_step = true ∧
    List.any (delete_shared_game 9 Owner.Immutable
      (fun _ => (.ok (), []))).2 wallet_step = true := by
  exact ⟨rfl, rfl, rfl⟩

/-- C10 (amended): for every game contents and every ownership value that
is not `Shared`, both making a move on a shared game and deleting a
shared game fail immediately with the game-is-not-shared error before any
transaction is built, estimated, signed, or submitted and before any RPC
call — the only step taken first is the wallet active-address lookup. -/
theorem C10_shared_guard (board_id : ObjectID) (owner : Owner)
    (row col : Nat) (restM restD : Nat → Except String Unit × List Step)
    (h : ∀ v, owner ≠ Owner.Shared v) :
    make_shared_move board_id owner row col restM =
      (.error "Game is not shared", [Step.activeAddress]) ∧
    delete_shared_game board_id owner restD =
      (.error "Game is not shared", [Step.activeAddress]) ∧
    List.any (make_shared_move board_id owner row col restM).2 rpc_step =
      false ∧
    List.any (delete_shared_game board_id owner restD).2 rpc_step =
      false ∧
    Step.buildSkeleton ∉ (make_shared_move board_id owner row col restM).2 ∧
    Step.sign ∉ (make_shared_move board_id owner row col restM).2 ∧
    Step.submit ∉ (make_shared_move board_id owner row col restM).2 := by
  cases owner with
  | Shared v => exact absurd rfl (h v)
  | AddressOwner a =>
    refine ⟨rfl, rfl, rfl, rfl, ?_, ?_, ?_⟩ <;> simp [make_shared_move]
  | ObjectOwner a =>
    refine ⟨rfl, rfl, rfl, rfl, ?_, ?_, ?_⟩ <;> simp [make_shared_move]
  | Immutable =>
    refine ⟨rfl, rfl, rfl, rfl, ?_, ?_, ?_⟩ <;> simp [make_shared_move]

/-- C10 witness: the amended theorem at `Immutable` ownership. -/
theorem C10_shared_guard_witness :
    make_shared_move 9 Owner.Immutable 0 0 (fun _ => (.ok (), [])) =
      (.error "Game is not shared", [Step.activeAddress]) ∧
    delete_shared_game 9 Owner.Immutable (fun _ => (.ok (), [])) =
      (.error "Game is not shared", [Step.activeAddress]) := by
  have hfull := C10_shared_guard 9 Owner.Immutable 0 0
    (fun _ => (.ok (), [])) (fun _ => (.ok (), []))
    (fun v hv => by simp at hv)
  exact ⟨hfull.1, hfull.2.1⟩
